import Mathlib

/-!
Verification of the change-detection / debounce engine and the inventory
synchronization command of quartodoc (src/quartodoc/__main__.py), as a
shallow embedding in Lean.

Modelling conventions:
* Python float mtimes are modelled as rational numbers; the debounce
  threshold 0.25 is exactly representable.
* Python exceptions are modelled with Except: an Except.error result of a
  handler function models an exception propagating out of that function.
* Filesystem reads are modelled by an explicit stat function; network
  fetches by an explicit fetch function; a none result models the
  corresponding Python call raising.
* The process working directory is explicit state threaded through
  chdir_run.
-/

namespace Quartodoc

/-- Embeds the pydantic model FileInfo of quartodoc/__main__.py:
size is an int, mtime a float (modelled as a rational), name a str
defaulting to the empty string. -/
structure FileInfo where
  size : Int
  mtime : ℚ
  name : String
deriving DecidableEq

/-- The sentinel previous snapshot installed by
QuartoDocFileChangeHandler.__init__: FileInfo(size=-1, mtime=-1, name=""). -/
def initial_file_info : FileInfo :=
  { size := -1, mtime := -1, name := "" }

/-- Embeds QuartoDocFileChangeHandler.is_diff: same_nm is name equality,
diff_sz is size inequality, diff_tm compares the signed mtime difference
against the 0.25 threshold with a strict greater-than. -/
def is_diff (old new : FileInfo) : Bool :=
  let same_nm : Bool := old.name == new.name
  let diff_sz : Bool := old.size != new.size
  let diff_tm : Bool := decide ((new.mtime - old.mtime) > (0.25 : ℚ))
  !same_nm || (same_nm && (diff_sz || diff_tm))

/-- A watchdog filesystem event, reduced to the two fields the handler
reads: event_type and src_path. -/
structure Event where
  event_type : String
  src_path : String
deriving DecidableEq

/-- The Python exceptions that can escape the handler code under study:
FileNotFoundError from os.stat, or an arbitrary exception raised by the
rebuild callback. -/
inductive PyError where
  | fileNotFound
  | callbackError
deriving DecidableEq

/-- Embeds QuartoDocFileChangeHandler.get_file_info.  The filesystem is an
explicit stat function returning (st_size, st_mtime); none models os.stat
raising FileNotFoundError.  The source calls os.stat twice on the same
path; we model a single consistent observation.  There is no try/except in
the source, so a stat failure is an error result. -/
def get_file_info (stat : String → Option (Int × ℚ)) (path : String) :
    Except PyError FileInfo :=
  match stat path with
  | none => Except.error PyError.fileNotFound
  | some sm => Except.ok { size := sm.1, mtime := sm.2, name := path }

/-- Embeds QuartoDocFileChangeHandler.callback_if_diff.  The callback is a
value of type Except PyError Unit whose error case models the callback
raising.  On success the result carries (whether the callback was invoked,
the updated old_file_info); an error result models an exception escaping
the handler, and in that case old_file_info is not updated because the
assignment comes after the raising statement in the source. -/
def callback_if_diff (stat : String → Option (Int × ℚ))
    (callback : Except PyError Unit) (old : FileInfo) (event : Event) :
    Except PyError (Bool × FileInfo) :=
  match get_file_info stat event.src_path with
  | Except.error e => Except.error e
  | Except.ok newInfo =>
    if is_diff old newInfo then
      match callback with
      | Except.error e => Except.error e
      | Except.ok _ => Except.ok (true, newInfo)
    else
      Except.ok (false, newInfo)

/-- Embeds the chdir context manager of quartodoc/__main__.py.  The process
working directory is explicit state: the body receives the directory it
runs in (prev is saved, then os.chdir(new_dir)) and returns its outcome
together with whatever working directory it left behind; the body may
itself change directory or raise.  The finally clause restores the saved
previous directory on both exit paths, which is the second component of
the result. -/
def chdir_run {ε : Type} (body : String → Except ε Unit × String)
    (new_dir cwd0 : String) : Except ε Unit × String :=
  let prev := cwd0
  let r := body new_dir
  (r.1, prev)

/-- One entry of the interlinks.sources mapping: the url field and the
optional inv file name. -/
structure Source where
  url : String
  inv : Option String
deriving DecidableEq

/-- The interlinks block of the quarto config: the sources mapping, kept as
an association list in iteration order, plus the cache field that the spec
locates inside this block. -/
structure InterlinksCfg where
  sources : List (String × Source)
  cache : Option String
deriving DecidableEq

/-- The quarto config fields the interlinks command reads: the optional
interlinks block and the top-level cache key. -/
structure Config where
  interlinks : Option InterlinksCfg
  cache : Option String
deriving DecidableEq

/-- The observable effects of one run of the interlinks source loop: the
URLs passed to soi.Inventory in order, the cache files written by
convert_inventory as (destination path components, fetched inventory
payload), and whether the loop was aborted by an exception from a fetch. -/
structure SyncResult (Inv : Type) where
  fetches : List String
  writes : List (List String × Inv)
  errored : Bool
deriving DecidableEq

/-- Embeds the for loop of the interlinks command.  fetch models
soi.Inventory(url=url); a none result models a network or parse exception,
which in the source is uncaught and therefore aborts all remaining
iterations.  Entries whose url is the local-root sentinel are skipped by
the continue statement.  convert_inventory is an external collaborator:
we record the destination path and the fetched inventory it would write. -/
def interlinks_loop {Inv : Type} (fetch : String → Option Inv)
    (p_root : List String) (cache : String) :
    List (String × Source) → SyncResult Inv
  | [] => { fetches := [], writes := [], errored := false }
  | (k, v) :: rest =>
    if v.url = "/" then
      interlinks_loop fetch p_root cache rest
    else
      let url := v.url ++ v.inv.getD "objects.inv"
      match fetch url with
      | none => { fetches := [url], writes := [], errored := true }
      | some inv =>
        let r := interlinks_loop fetch p_root cache rest
        { fetches := url :: r.fetches
          writes := (p_root ++ [cache, k ++ "_objects.json"], inv) :: r.writes
          errored := r.errored }

/-- The cache directory the source actually uses:
cache = cfg.get("cache", "_inv"), i.e. the top-level cache key of the
config with default _inv. -/
def code_cache_dir (cfg : Config) : String :=
  cfg.cache.getD "_inv"

/-- Follows the spec's words for comparison with code_cache_dir: the cache
directory is the interlinks.cache path override, defaulting to _inv when
absent. -/
def spec_cache_dir (cfg : Config) : String :=
  ((cfg.interlinks.bind InterlinksCfg.cache).getD "_inv")

/-- The outcome of the interlinks command: either the early return that
prints the no-interlinks notice, or a completed run of the source loop. -/
inductive CmdResult (Inv : Type) where
  | noInterlinks
  | ran (r : SyncResult Inv)
deriving DecidableEq

/-- Embeds the body of the interlinks command.  p_root stands for
Path(config).parent as path components; dry_run mirrors the --dry-run
flag, which the source declares but never reads in the body. -/
def interlinks_cmd {Inv : Type} (fetch : String → Option Inv)
    (p_root : List String) (cfg : Config) (dry_run : Bool) :
    CmdResult Inv :=
  match cfg.interlinks with
  | none => CmdResult.noInterlinks
  | some il =>
    CmdResult.ran (interlinks_loop fetch p_root (code_cache_dir cfg) il.sources)

/-- The list of destination paths written by a run of the interlinks
command. -/
def writePaths {Inv : Type} : CmdResult Inv → List (List String)
  | CmdResult.noInterlinks => []
  | CmdResult.ran r => r.writes.map Prod.fst

/-- A filesystem stub on which every stat succeeds with size 10 and
mtime 1. -/
def statA : String → Option (Int × ℚ) := fun _ => some (10, 1)

/-- A concrete modified event on path a.py. -/
def evA : Event := { event_type := "modified", src_path := "a.py" }

/-- A concrete modified event on path b.py. -/
def evB : Event := { event_type := "modified", src_path := "b.py" }

/-- A concrete created event on path c.py. -/
def evC : Event := { event_type := "created", src_path := "c.py" }

/-- A concrete interlink source entry with url https://a/. -/
def srcA : Source := { url := "https://a/", inv := none }

/-- A concrete interlink source entry with url https://b/. -/
def srcB : Source := { url := "https://b/", inv := none }

/-- A concrete interlink source entry with url https://c/. -/
def srcC : Source := { url := "https://c/", inv := none }

/-- A concrete self-referencing interlink source entry with the local-root
sentinel url. -/
def srcSelf : Source := { url := "/", inv := none }

/-- A concrete config with three sources A, B, C and no cache overrides. -/
def cfgABC : Config :=
  { interlinks := some { sources := [("A", srcA), ("B", srcB), ("C", srcC)], cache := none },
    cache := none }

/-- A fetch stub that raises exactly on source B's inventory URL and
succeeds everywhere else. -/
def fetchFailB : String → Option String :=
  fun u => if u = "https://b/objects.inv" then none else some "inv-payload"

/-- A fetch stub that always succeeds. -/
def fetchOk : String → Option String := fun _ => some "inv-payload"

/-- A concrete interlinks block with one source and an interlinks-level
cache override set to custom. -/
def ilCustom : InterlinksCfg :=
  { sources := [("A", srcA)], cache := some "custom" }

/-- A concrete config whose interlinks block carries the cache override
custom while the top-level cache key is absent. -/
def cfgCustomCache : Config :=
  { interlinks := some ilCustom, cache := none }

/-- Claim C1: is_diff returns true exactly when the name differs, or the
name is the same and (the size differs or the signed mtime delta strictly
exceeds 0.25); at an mtime delta of exactly 0.25 with equal names and
sizes no change is reported, and with equal names a size difference is
reported regardless of the mtime delta. -/
theorem C1_is_diff_characterization (old new : FileInfo) :
    (is_diff old new = true ↔
      old.name ≠ new.name ∨
        (old.name = new.name ∧
          (old.size ≠ new.size ∨ (0.25 : ℚ) < new.mtime - old.mtime)))
    ∧ (old.name = new.name → old.size = new.size →
        new.mtime - old.mtime = 0.25 → is_diff old new = false)
    ∧ (old.name = new.name → old.size ≠ new.size → is_diff old new = true) := by
  refine ⟨?_, ?_, ?_⟩
  · simp only [is_diff, Bool.or_eq_true, Bool.and_eq_true, Bool.not_eq_true',
      beq_iff_eq, beq_eq_false_iff_ne, bne_iff_ne, decide_eq_true_eq]
  · intro h1 h2 h3
    norm_num [is_diff, h1, h2, h3]
  · intro h1 h2
    simp [is_diff, h1, h2]

/-- Witness for C1: at equal names, equal sizes and an mtime delta of
exactly 0.25, no change is reported. -/
theorem C1_witness :
    is_diff ⟨3, 0, "a.py"⟩ ⟨3, 1/4, "a.py"⟩ = false :=
  (C1_is_diff_characterization ⟨3, 0, "a.py"⟩ ⟨3, 1/4, "a.py"⟩).2.1 rfl rfl (by norm_num)

/-- Claim C2, counterexample to the claim as stated: with a stat that
succeeds and a callback that raises, callback_if_diff evaluates to an
error result, i.e. the exception propagates out of the per-event handler
instead of being caught and logged. -/
theorem C2_counterexample :
    callback_if_diff statA (Except.error PyError.callbackError) initial_file_info evA
      = Except.error PyError.callbackError := by
  norm_num [callback_if_diff, get_file_info, is_diff, initial_file_info, statA, evA]

/-- Claim C2 as amended: whenever the snapshot read succeeds, the debounce
predicate accepts the event and the rebuild callback raises, the exception
propagates out of callback_if_diff uncaught, and the stored previous
snapshot is not updated. -/
theorem C2_callback_exception_propagates (stat : String → Option (Int × ℚ))
    (old : FileInfo) (event : Event) (ni : FileInfo) (e : PyError)
    (hstat : get_file_info stat event.src_path = Except.ok ni)
    (hdiff : is_diff old ni = true) :
    callback_if_diff stat (Except.error e) old event = Except.error e := by
  simp [callback_if_diff, hstat, hdiff]

/-- Witness for the amended C2 at a concrete event and raising callback. -/
theorem C2_witness :
    callback_if_diff statA (Except.error PyError.callbackError) initial_file_info evB
      = Except.error PyError.callbackError :=
  C2_callback_exception_propagates statA initial_file_info evB ⟨10, 1, "b.py"⟩
    PyError.callbackError (by norm_num [get_file_info, statA, evB])
    (by norm_num [is_diff, initial_file_info])

/-- Claim C3, counterexample to the claim as stated: when the event's path
cannot be stat-ed (the file was deleted), callback_if_diff evaluates to an
error result, i.e. the FileNotFoundError propagates out of the handler
instead of the event being suppressed. -/
theorem C3_counterexample :
    callback_if_diff (fun _ => none) (Except.ok ()) initial_file_info evC
      = Except.error PyError.fileNotFound := by
  norm_num [callback_if_diff, get_file_info, evC]

/-- Claim C3 as amended: whenever stat fails on the event's path, the
FileNotFoundError propagates out of callback_if_diff; the result does not
depend on the callback, so the callback is never invoked, and the stored
previous snapshot is not updated. -/
theorem C3_stat_failure_propagates (stat : String → Option (Int × ℚ))
    (cb : Except PyError Unit) (old : FileInfo) (event : Event)
    (h : stat event.src_path = none) :
    callback_if_diff stat cb old event = Except.error PyError.fileNotFound := by
  simp [callback_if_diff, get_file_info, h]

/-- Witness for the amended C3 at a concrete event on a deleted path. -/
theorem C3_witness :
    callback_if_diff (fun _ => none) (Except.ok ()) initial_file_info evA
      = Except.error PyError.fileNotFound :=
  C3_stat_failure_propagates (fun _ => none) (Except.ok ()) initial_file_info evA rfl

/-- Claim C4, counterexample to the claim as stated: with sources A, B, C
and a fetch that fails on B, only A's cache file is written; C's cache
file is missing, so there is no partial-failure isolation across
sources. -/
theorem C4_counterexample :
    writePaths (interlinks_cmd fetchFailB ["."] cfgABC false) =
        [[".", "_inv", "A_objects.json"]] ∧
      [".", "_inv", "C_objects.json"] ∉
        writePaths (interlinks_cmd fetchFailB ["."] cfgABC false) := by
  decide

/-- Claim C4 as amended: a fetch or parse failure on one source aborts the
whole loop at that source, because the exception is uncaught: every source
earlier in iteration order keeps its fetches and cache writes, while the
failing source and every later source produce no cache file. -/
theorem C4_fetch_failure_aborts_rest {Inv : Type} (fetch : String → Option Inv)
    (p_root : List String) (cache : String)
    (xs : List (String × Source)) (k : String) (v : Source)
    (ys : List (String × Source))
    (hxs : ∀ p ∈ xs, p.2.url = "/" ∨
      fetch (p.2.url ++ p.2.inv.getD "objects.inv") ≠ none)
    (hv : v.url ≠ "/")
    (hf : fetch (v.url ++ v.inv.getD "objects.inv") = none) :
    interlinks_loop fetch p_root cache (xs ++ (k, v) :: ys) =
      { fetches := (interlinks_loop fetch p_root cache xs).fetches ++
          [v.url ++ v.inv.getD "objects.inv"],
        writes := (interlinks_loop fetch p_root cache xs).writes,
        errored := true } := by
  induction xs with
  | nil => simp [interlinks_loop, hv, hf]
  | cons p xs ih =>
    obtain ⟨k1, v1⟩ := p
    have hxs1 : ∀ p ∈ xs, p.2.url = "/" ∨
        fetch (p.2.url ++ p.2.inv.getD "objects.inv") ≠ none :=
      fun p hp => hxs p (List.mem_cons_of_mem _ hp)
    have hp : v1.url = "/" ∨ fetch (v1.url ++ v1.inv.getD "objects.inv") ≠ none :=
      hxs ⟨k1, v1⟩ (List.mem_cons_self _ _)
    by_cases hurl : v1.url = "/"
    · simpa [interlinks_loop, hurl] using ih hxs1
    · rcases hp with h | h
      · exact absurd h hurl
      · obtain ⟨i, hi⟩ := Option.ne_none_iff_exists'.mp h
        simp [interlinks_loop, hurl, hi, ih hxs1]

/-- Witness for the amended C4 at the concrete A, B, C configuration with a
fetch failing on B. -/
theorem C4_witness :
    interlinks_loop fetchFailB ["."] "_inv" ([("A", srcA)] ++ ("B", srcB) :: [("C", srcC)]) =
      { fetches := (interlinks_loop fetchFailB ["."] "_inv" [("A", srcA)]).fetches ++
          ["https://b/objects.inv"],
        writes := (interlinks_loop fetchFailB ["."] "_inv" [("A", srcA)]).writes,
        errored := true } :=
  C4_fetch_failure_aborts_rest fetchFailB ["."] "_inv" [("A", srcA)] "B" srcB [("C", srcC)]
    (by decide) (by decide) (by decide)

/-- Claim C5: the sentinel previous snapshot of a freshly initialized
session never matches a real observed file (non-empty name, non-negative
size), so the first event always reports a change. -/
theorem C5_first_event_always_diff (info : FileInfo)
    (hname : info.name ≠ "") (hsize : 0 ≤ info.size) :
    is_diff initial_file_info info = true := by
  have h : ¬ ("" = info.name) := fun h => hname h.symm
  simp [is_diff, initial_file_info, h]

/-- Witness for C5 at a concrete real snapshot. -/
theorem C5_witness : is_diff initial_file_info ⟨10, 5, "a.py"⟩ = true :=
  C5_first_event_always_diff ⟨10, 5, "a.py"⟩ (by simp) (by norm_num)

/-- Helper: every cache file written by the interlinks loop lies at
p_root followed by the cache directory and the key-derived file name, for
some configured source whose url is not the local-root sentinel. -/
theorem interlinks_loop_writes_shape {Inv : Type} (fetch : String → Option Inv)
    (p_root : List String) (cache : String) (srcs : List (String × Source))
    (w : List String × Inv)
    (hw : w ∈ (interlinks_loop fetch p_root cache srcs).writes) :
    ∃ k v, (k, v) ∈ srcs ∧ v.url ≠ "/" ∧
      w.1 = p_root ++ [cache, k ++ "_objects.json"] := by
  induction srcs with
  | nil => simp [interlinks_loop] at hw
  | cons p rest ih =>
    obtain ⟨k, v⟩ := p
    by_cases hurl : v.url = "/"
    · simp only [interlinks_loop, if_pos hurl] at hw
      obtain ⟨k1, v1, h1, h2, h3⟩ := ih hw
      exact ⟨k1, v1, List.mem_cons_of_mem _ h1, h2, h3⟩
    · rw [interlinks_loop, if_neg hurl] at hw
      cases hf : fetch (v.url ++ v.inv.getD "objects.inv") with
      | none =>
        simp [hf] at hw
      | some i =>
        simp only [hf, List.mem_cons] at hw
        rcases hw with hw | hw
        · exact ⟨k, v, List.mem_cons_self _ _, hurl, by rw [hw]⟩
        · obtain ⟨k1, v1, h1, h2, h3⟩ := ih hw
          exact ⟨k1, v1, List.mem_cons_of_mem _ h1, h2, h3⟩

/-- Claim C6, counterexample to the claim as stated: with an
interlinks-level cache override set to custom and no top-level cache key,
the cache file is written under _inv, not under the directory the
interlinks.cache override names. -/
theorem C6_counterexample :
    writePaths (interlinks_cmd fetchOk ["."] cfgCustomCache false) =
        [[".", "_inv", "A_objects.json"]] ∧
      spec_cache_dir cfgCustomCache = "custom" ∧
      [".", "custom", "A_objects.json"] ∉
        writePaths (interlinks_cmd fetchOk ["."] cfgCustomCache false) := by
  decide

/-- Claim C6 as amended: every cache file written by the interlinks command
goes to p_root followed by the top-level cache key of the config
(defaulting to _inv; the interlinks.cache field is ignored) and the file
name k followed by the suffix, for some configured source k whose url is
not the local-root sentinel. -/
theorem C6_cache_dir_is_top_level {Inv : Type} (fetch : String → Option Inv)
    (p_root : List String) (cfg : Config) (il : InterlinksCfg) (dr : Bool)
    (w : List String)
    (hil : cfg.interlinks = some il)
    (hw : w ∈ writePaths (interlinks_cmd fetch p_root cfg dr)) :
    ∃ k v, (k, v) ∈ il.sources ∧ v.url ≠ "/" ∧
      w = p_root ++ [code_cache_dir cfg, k ++ "_objects.json"] := by
  rw [interlinks_cmd, hil] at hw
  simp only [writePaths, List.mem_map] at hw
  obtain ⟨x, hx, hx1⟩ := hw
  obtain ⟨k, v, h1, h2, h3⟩ := interlinks_loop_writes_shape fetch p_root
    (code_cache_dir cfg) il.sources x hx
  exact ⟨k, v, h1, h2, hx1 ▸ h3⟩

/-- Witness for the amended C6 at the concrete config carrying an ignored
interlinks-level cache override. -/
theorem C6_witness :
    ∃ k v, (k, v) ∈ ilCustom.sources ∧ v.url ≠ "/" ∧
      [".", "_inv", "A_objects.json"] =
        ["."] ++ [code_cache_dir cfgCustomCache, k ++ "_objects.json"] :=
  C6_cache_dir_is_top_level fetchOk ["."] cfgCustomCache ilCustom false
    [".", "_inv", "A_objects.json"] rfl (by decide)

/-- Claim C7: a source entry whose url is the local-root sentinel is
skipped entirely, wherever it sits in iteration order: the loop's fetches,
writes and error status are exactly those of the same configuration with
the entry removed, so the entry triggers no fetch and no cache file while
all other entries are processed normally. -/
theorem C7_local_root_never_fetched {Inv : Type} (fetch : String → Option Inv)
    (p_root : List String) (cache : String)
    (xs : List (String × Source)) (k : String) (v : Source)
    (ys : List (String × Source)) (hv : v.url = "/") :
    interlinks_loop fetch p_root cache (xs ++ (k, v) :: ys) =
      interlinks_loop fetch p_root cache (xs ++ ys) := by
  induction xs with
  | nil => simp [interlinks_loop, hv]
  | cons p xs ih =>
    obtain ⟨k1, v1⟩ := p
    by_cases hurl : v1.url = "/"
    · simp [interlinks_loop, hurl, ih]
    · cases hf : fetch (v1.url ++ v1.inv.getD "objects.inv") with
      | none => simp [interlinks_loop, hurl, hf]
      | some i => simp [interlinks_loop, hurl, hf, ih]

/-- Witness for C7 at a concrete configuration containing a self-reference
between two ordinary sources. -/
theorem C7_witness :
    interlinks_loop fetchOk ["."] "_inv" ([("A", srcA)] ++ ("self", srcSelf) :: [("C", srcC)]) =
      interlinks_loop fetchOk ["."] "_inv" ([("A", srcA)] ++ [("C", srcC)]) :=
  C7_local_root_never_fetched fetchOk ["."] "_inv" [("A", srcA)] "self" srcSelf
    [("C", srcC)] rfl

/-- Claim C8: the chdir scope restores the original working directory on
every exit path, whether the body returns normally or raises, and it
propagates the body's outcome unchanged. -/
theorem C8_chdir_restores {ε : Type} (body : String → Except ε Unit × String)
    (new_dir cwd0 : String) :
    (chdir_run body new_dir cwd0).2 = cwd0 ∧
      (chdir_run body new_dir cwd0).1 = (body new_dir).1 :=
  ⟨rfl, rfl⟩

/-- Claim C9: the debouncer compares the signed mtime difference against
the threshold, not its absolute value: with identical name and size, an
mtime that is unchanged or moved backward by any amount never reports a
change. -/
theorem C9_signed_delta (old new : FileInfo) (hn : old.name = new.name)
    (hs : old.size = new.size) (hm : new.mtime ≤ old.mtime) :
    is_diff old new = false := by
  have h : ¬ ((0.25 : ℚ) < new.mtime - old.mtime) := by
    intro hlt
    linarith
  simp [is_diff, hn, hs, h]

/-- Witness for C9 at a concrete pair whose mtime moved backward by 6. -/
theorem C9_witness : is_diff ⟨3, 10, "a.py"⟩ ⟨3, 4, "a.py"⟩ = false :=
  C9_signed_delta ⟨3, 10, "a.py"⟩ ⟨3, 4, "a.py"⟩ rfl rfl (by norm_num)

/-- Claim C10: the --dry-run flag of the interlinks command has no effect:
the command performs the same fetches and writes the same cache files with
the flag set as with it unset, because the body never reads the flag. -/
theorem C10_dry_run_no_effect {Inv : Type} (fetch : String → Option Inv)
    (p_root : List String) (cfg : Config) :
    interlinks_cmd fetch p_root cfg true = interlinks_cmd fetch p_root cfg false := rfl

end Quartodoc
